import Mathlib

/-!
Verification of the wazerolift cranelift engine against its specification.

The definitions below are a shallow embedding of the Go source
(`internal/engine.go` and the host-import file registering the "wazero"
module).  Pure computations (layout, stitching, byte encoding, result
decoding) become Lean functions over `Nat`-valued bytes and addresses;
the engine's mutable maps become an explicit `engineState` record passed
through the step functions; Go `panic` becomes a distinguished outcome
constructor and fallible Go returns become `Option`/error outcomes.

Machine addresses are modelled as `Nat`.  Where the source calls code
that is not part of this repository's `src/` tree (the external cranelift
generator, `platform.MmapCodeSegment`, `applyFunctionRelocations`,
`getEntryPoint`, `paramSetupFn`), the behaviour is modelled from the
specification and marked as such on the definition.
-/

namespace Wazerolift

/-! ## Byte-level helpers (binary.LittleEndian) -/

/-- Little-endian decoding of a byte list: byte 0 is least significant.
Models `binary.LittleEndian.Uint32`/`Uint64` applied to the given bytes. -/
def decodeLEList : List Nat → Nat
  | [] => 0
  | b :: rest => b % 256 + 256 * decodeLEList rest

/-- Reads `n` bytes little-endian at `off` from `buf`. -/
def readLE (buf : List Nat) (off n : Nat) : Nat :=
  decodeLEList ((buf.drop off).take n)

/-- The 8 little-endian bytes of `v` (models `binary.LittleEndian.PutUint64`;
only the low 64 bits of `v` are represented, as in Go's `uint64`). -/
def u64leBytes (v : Nat) : List Nat :=
  [v % 256, v / 2 ^ 8 % 256, v / 2 ^ 16 % 256, v / 2 ^ 24 % 256,
   v / 2 ^ 32 % 256, v / 2 ^ 40 % 256, v / 2 ^ 48 % 256, v / 2 ^ 56 % 256]

/-- The 4 little-endian bytes of `v` (models `binary.LittleEndian.PutUint32`). -/
def u32leBytes (v : Nat) : List Nat :=
  [v % 256, v / 2 ^ 8 % 256, v / 2 ^ 16 % 256, v / 2 ^ 24 % 256]

/-- Overwrites `buf[off .. off + bs.length)` with `bs`
(the in-place slice store performed by `binary.LittleEndian.Put...`). -/
def writeBytesAt (buf : List Nat) (off : Nat) (bs : List Nat) : List Nat :=
  buf.take off ++ bs ++ buf.drop (off + bs.length)

/-! ## Association lists for the engine's Go maps -/

/-- Lookup in a Go map modelled as an association list (`m[k]` with `ok`). -/
def lookupA {α : Type} (l : List (Nat × α)) (k : Nat) : Option α :=
  match l.find? (fun p => p.1 == k) with
  | some p => some p.2
  | none => none

/-- Map update `m[k] = v`. -/
def setA {α : Type} (l : List (Nat × α)) (k : Nat) (v : α) : List (Nat × α) :=
  match l with
  | [] => [(k, v)]
  | p :: rest => if p.1 == k then (k, v) :: rest else p :: setA rest k v

/-- Map deletion `delete(m, k)`. -/
def removeA {α : Type} (l : List (Nat × α)) (k : Nat) : List (Nat × α) :=
  l.filter (fun p => p.1 != k)

/-! ## Data model

Mirrors the compile-time and instantiation-time objects of
`internal/engine.go`.  `engineext.Module` / `engineext.ModuleInstance`
handles are reduced to the queries the engine actually performs on them. -/

/-- Wasm value-type byte `wasm.ValueTypeI32` (0x7f). -/
def ValueTypeI32 : Nat := 0x7f

/-- Wasm value-type byte `wasm.ValueTypeI64` (0x7e). -/
def ValueTypeI64 : Nat := 0x7e

/-- Wasm value-type byte `wasm.ValueTypeF32` (0x7d). -/
def ValueTypeF32 : Nat := 0x7d

/-- Wasm value-type byte `wasm.ValueTypeF64` (0x7c). -/
def ValueTypeF64 : Nat := 0x7c

/-- A module descriptor, reduced to the `engineext.Module` queries used by
the engine: `ModuleID()`, `HostModule()`, `ImportFuncCount()`,
`CodeCount()`, `LocalMemoriesCount()`, `ImportedMemoriesCount()`. -/
structure Mod where
  moduleID : Nat
  hostModule : Bool
  importFuncCount : Nat
  codeCount : Nat
  localMemoriesCount : Nat
  importedMemoriesCount : Nat
deriving DecidableEq, Repr

/-- `opaqueVmContextOffsets`: the VM-context layout record.  The `begin`
fields use the Go `int` sentinel convention (−1 = absent), hence `Int`. -/
structure opaqueVmContextOffsets where
  totalSize : Int
  localMemoryBegin : Int
  importedMemoryBegin : Int
  importedFunctionsBegin : Int
deriving DecidableEq, Repr

/-- `pendingCompiledBody`: machine code plus relocation records
`functionRelocationEntry{index, offset}` as produced by `compile_done`. -/
structure pendingCompiledBody where
  machineCode : List Nat
  relocs : List (Nat × Nat)
deriving DecidableEq, Repr

/-- `compiledModule`: the mapped executable (its base address and bytes),
the per-function offsets into it, and the module's VM-context layout. -/
structure compiledModule where
  executableBaseAddr : Nat
  executable : List Nat
  executableOffsets : List Nat
  vmOffsets : opaqueVmContextOffsets
deriving DecidableEq, Repr

/-- A module instance handle, reduced to the `engineext.ModuleInstance`
queries used by the engine.  `key` is the instance identity under which
the engine registers VM contexts; `memoryBufferFirstByteAddr` is the
address of the first byte of `MemoryInstanceBuffer()` and
`memoryBufferLen` its length; `importedFunctions` is the
`ImportedFunctions()` pair list (foreign instance key, function index). -/
structure ModInstance where
  key : Nat
  moduleInstanceName : String
  memoryBufferFirstByteAddr : Nat
  memoryBufferLen : Nat
  importedMemoryInstancePtr : Nat
  importedFunctions : List (Nat × Nat)
deriving DecidableEq, Repr

/-- `vmContextImportedFunction`: resolved executable entry address and the
foreign VM context's opaque-buffer address, one per imported function. -/
structure vmContextImportedFunction where
  executable : Nat
  vmctxOpaquePtr : Nat
deriving DecidableEq, Repr

/-- `vmContext`: per-instance engine state.  `opaqueVmContextPtr` is the
pinned address of `opaqueVmContext[0]` (an allocator-chosen address in
the model); `moduleInstanceName` stands for
`vm.module.ModuleInstanceName()`. -/
structure vmContext where
  moduleInstanceName : String
  parent : compiledModule
  importedFunctions : List vmContextImportedFunction
  opaqueVmContextPtr : Nat
  opaqueVmContext : List Nat
deriving DecidableEq, Repr

/-- The engine's mutable registries: `modules` (ModuleID → compiledModule),
`pendingCompiledFunctions` (ModuleID → pending bodies) and `vmctxs`
(instance identity → vmContext). -/
structure engineState where
  modules : List (Nat × compiledModule)
  pending : List (Nat × List pendingCompiledBody)
  vmctxs : List (Nat × vmContext)
deriving DecidableEq, Repr

/-! ## VM-context layout (`getOpaqueVmContextOffsets`) -/

/-- `getOpaqueVmContextOffsets`: computes the per-module VM-context layout.
Translates the source line by line: a running `offset` and `totalSize`
both start at 0; a local memory reserves 16 bytes at offset 0, an
imported memory 8 bytes at the next offset, the imported-function records
(16 bytes each) begin after those reservations. -/
def getOpaqueVmContextOffsets (m : Mod) : opaqueVmContextOffsets :=
  let offset0 : Int := 0
  let totalSize0 : Int := 0
  let localMemoryBegin : Int := if 0 < m.localMemoriesCount then offset0 else -1
  let offset1 : Int := if 0 < m.localMemoriesCount then offset0 + 16 else offset0
  let totalSize1 : Int := if 0 < m.localMemoriesCount then totalSize0 + 16 else totalSize0
  let importedMemoryBegin : Int := if 0 < m.importedMemoriesCount then offset1 else -1
  let offset2 : Int := if 0 < m.importedMemoriesCount then offset1 + 8 else offset1
  let totalSize2 : Int := if 0 < m.importedMemoriesCount then totalSize1 + 8 else totalSize1
  { totalSize := totalSize2 + 16 * (m.importFuncCount : Int)
    localMemoryBegin := localMemoryBegin
    importedMemoryBegin := importedMemoryBegin
    importedFunctionsBegin := offset2 }

/-! ## VM-context materialization (`buildOpaqueVMContext`) -/

/-- The imported-functions loop of `buildOpaqueVMContext`: starting at
`offset`, writes for each imported function the pair
(executable entry, foreign opaque-vm-context pointer) as two
little-endian u64. -/
def writeImportedFunctions (buf : List Nat) (offset : Nat) :
    List vmContextImportedFunction → List Nat
  | [] => buf
  | f :: rest =>
    let buf1 := writeBytesAt buf offset (u64leBytes f.executable)
    let buf2 := writeBytesAt buf1 (offset + 8) (u64leBytes f.vmctxOpaquePtr)
    writeImportedFunctions buf2 (offset + 16) rest

/-- `buildOpaqueVMContext`: materializes the opaque per-instance buffer.
The source obtains `memBuf := vm.module.MemoryInstanceBuffer()` — a local
Go variable holding the slice header — and then writes
`uint64(uintptr(unsafe.Pointer(&memBuf)))`, i.e. the address of that
local variable, followed by `uint64(len(memBuf))`.  The model therefore
takes `memBufVarAddr`, the address the Go runtime assigns to the local
variable `memBuf`; this address is distinct from
`mi.memoryBufferFirstByteAddr`, the address of the buffer's first byte
(`&memBuf[0]`), since the slice header and the buffer it points to are
separate allocations.  The `vm.module == nil` early return cannot fire on
the `NewModuleEngine` path (the module is assigned just before the call)
and is omitted. -/
def buildOpaqueVMContext (vmOffsets : opaqueVmContextOffsets) (mi : ModInstance)
    (memBufVarAddr : Nat) (importedFunctions : List vmContextImportedFunction) :
    List Nat :=
  if vmOffsets.totalSize = 0 then []
  else
    let buf0 := List.replicate vmOffsets.totalSize.toNat 0
    let buf1 :=
      if 0 ≤ vmOffsets.localMemoryBegin then
        let b := writeBytesAt buf0 vmOffsets.localMemoryBegin.toNat (u64leBytes memBufVarAddr)
        writeBytesAt b (vmOffsets.localMemoryBegin.toNat + 8) (u64leBytes mi.memoryBufferLen)
      else buf0
    let buf2 :=
      if 0 ≤ vmOffsets.importedMemoryBegin then
        writeBytesAt buf1 vmOffsets.importedMemoryBegin.toNat
          (u64leBytes mi.importedMemoryInstancePtr)
      else buf1
    writeImportedFunctions buf2 vmOffsets.importedFunctionsBegin.toNat importedFunctions

/-! ## Function resolution (`resolveFunctionExecutable`) -/

/-- `resolveFunctionExecutable`: for a locally defined index returns the
address `&compiled.executable[compiled.executableOffsets[localIndex]]`
(modelled as base address + offset); for an imported index the source
panics (`"BUG: resolveFunction must be called only on locally defined
functions"`), modelled as `none`, as are the Go index-out-of-range panics
on the two slice accesses. -/
def resolveFunctionExecutable (vm : vmContext) (functionIndex : Nat) : Option Nat :=
  if vm.importedFunctions.length ≤ functionIndex then
    let localIndex := functionIndex - vm.importedFunctions.length
    match vm.parent.executableOffsets[localIndex]? with
    | none => none
    | some off =>
      if off < vm.parent.executable.length then
        some (vm.parent.executableBaseAddr + off)
      else none
  else none

/-! ## Compilation driver (`CompileModule`) -/

/-- The stitch loop of `CompileModule` with the running `totalSize`
accumulator: each pending body is assigned the running sum of the
machine-code lengths of the bodies before it
(`executableOffsets[i] = totalSize; totalSize += len`). -/
def stitchExecutableOffsets (totalSize : Nat) : List pendingCompiledBody → List Nat
  | [] => []
  | compiled :: rest =>
    totalSize :: stitchExecutableOffsets (totalSize + compiled.machineCode.length) rest

/-- `executableOffsets` as computed by `CompileModule`'s stitch loop. -/
def executableOffsetsOf (compiledFns : List pendingCompiledBody) : List Nat :=
  stitchExecutableOffsets 0 compiledFns

/-- The final `totalSize` of the stitch loop: the sum of all machine-code
lengths. -/
def totalSizeOf (compiledFns : List pendingCompiledBody) : Nat :=
  (compiledFns.map (fun c => c.machineCode.length)).sum

/-- Modelled from the spec: `applyFunctionRelocations` is not under `src/`
(only its call site is).  Per the spec, for every pending body and every
reloc `(callee_func_index, offset_in_body)` it carries, the 4-byte
little-endian slot at `offset_in_body` is patched with a target derived
from `executableOffsets[callee_func_index - imported]`; the exact encoding
is generator-defined, modelled here as the callee's final offset. -/
def patchReloc (imported : Nat) (offsets : List Nat) (code : List Nat)
    (r : Nat × Nat) : List Nat :=
  writeBytesAt code r.2 (u32leBytes (offsets.getD (r.1 - imported) 0))

/-- Modelled from the spec: applies all relocation records of every pending
body in place (see `patchReloc`). -/
def applyFunctionRelocations (imported : Nat) (offsets : List Nat)
    (compiledFns : List pendingCompiledBody) : List pendingCompiledBody :=
  compiledFns.map fun b =>
    { b with machineCode := b.relocs.foldl (patchReloc imported offsets) b.machineCode }

/-- Outcome of `CompileModule`: a normal return with the engine state, an
error return with the engine state at the `return err` site, or a Go
`panic`. -/
inductive CompileOutcome where
  | ok (st : engineState)
  | err (st : engineState)
  | panicked
deriving DecidableEq, Repr

/-- The per-function compile loop of `CompileModule`.  `gen` is the external
cranelift generator: `gen funcId` is the pending body it emits for that
function, or `none` when `compileFunction` returns an error.  Modelled from
the spec: the generator, before `compile_function` returns successfully,
invokes `compile_done` exactly once, and `exportCompileDone` (in `src/`)
appends the emitted body to `pendingCompiledFunctions[id]`; the
accumulator below is that map entry.  On error the bodies appended so far
are returned with the error. -/
def compileFunctions (gen : Nat → Option pendingCompiledBody) :
    List Nat → List pendingCompiledBody →
    Except (List pendingCompiledBody) (List pendingCompiledBody)
  | [], acc => .ok acc
  | funcId :: rest, acc =>
    match gen funcId with
    | none => .error acc
    | some body => compileFunctions gen rest (acc ++ [body])

/-- `CompileModule`: host modules panic (`panic("TODO")`); each local
function `i` is compiled as function index `i + importFuncCount`; the
pending bodies are then looked up (`panic("BUG")` when the map has no
entry, which happens exactly when no body was ever appended for the id),
stitched, relocated, mapped (the code-segment mapper is not under `src/`;
modelled from the spec as the oracle pair `mmapOk`, the mapper's success,
and `base`, the returned base address; on mapper failure the error is
returned), registered under the module id, and the pending entry deleted.
The Go map holds an entry for `id` iff one existed on entry or at least
one append happened during the loop. -/
def CompileModule (st : engineState) (m : Mod)
    (gen : Nat → Option pendingCompiledBody) (mmapOk : Bool) (base : Nat) :
    CompileOutcome :=
  if m.hostModule then .panicked
  else
    let id := m.moduleID
    let acc0 := (lookupA st.pending id).getD []
    let hadEntry := (lookupA st.pending id).isSome
    match compileFunctions gen ((List.range m.codeCount).map (· + m.importFuncCount)) acc0 with
    | .error sofar =>
      let pending' :=
        if hadEntry ∨ acc0.length < sofar.length then setA st.pending id sofar
        else st.pending
      .err { st with pending := pending' }
    | .ok allBodies =>
      if hadEntry ∨ acc0.length < allBodies.length then
        let compiledFns := allBodies
        let offsets := executableOffsetsOf compiledFns
        let relocated := applyFunctionRelocations m.importFuncCount offsets compiledFns
        if mmapOk then
          let executable := (relocated.map (fun c => c.machineCode)).flatten
          let compiledMod : compiledModule :=
            { executableBaseAddr := base
              executable := executable
              executableOffsets := offsets
              vmOffsets := getOpaqueVmContextOffsets m }
          .ok { st with
                modules := setA st.modules id compiledMod
                pending := removeA (setA st.pending id compiledFns) id }
        else .err { st with pending := setA st.pending id compiledFns }
      else .panicked

/-! ## Instantiation (`NewModuleEngine`) -/

/-- Outcome of `NewModuleEngine`: success with the updated engine state and
the created VM context, an error return with the engine state at the
return site, or a Go `panic`. -/
inductive NMEOutcome where
  | ok (st : engineState) (vm : vmContext)
  | err (st : engineState) (msg : String)
  | panicked
deriving DecidableEq, Repr

/-- The imported-functions loop of `NewModuleEngine`: for each
`(foreign instance, function index)` pair, the foreign VM context is
looked up in `vmctxs` (`panic("BUG")` when absent, modelled as `none`) and
the entry is resolved with `resolveFunctionExecutable` (which panics on a
non-local index). -/
def resolveImportedFunctions (st : engineState) :
    List (Nat × Nat) → Option (List vmContextImportedFunction)
  | [] => some []
  | (imiKey, idx) :: rest =>
    match lookupA st.vmctxs imiKey with
    | none => none
    | some importedVmCtx =>
      match resolveFunctionExecutable importedVmCtx idx with
      | none => none
      | some addr =>
        (resolveImportedFunctions st rest).map
          (fun tail => ⟨addr, importedVmCtx.opaqueVmContextPtr⟩ :: tail)

/-- `NewModuleEngine`: resolves the instance's imported functions, then
looks the module id up in the compiled-module registry; when absent it
returns `fmt.Errorf("source module for %s must be compiled before
instantiation", name)` with the engine state untouched; otherwise it
builds the VM context (`buildOpaqueVMContext`, see there for
`memBufVarAddr`) and registers it under the instance identity.
`opaqueBufAddr` is the allocator-chosen pinned address of
`opaqueVmContext[0]`. -/
def NewModuleEngine (st : engineState) (name : String) (m : Mod) (mi : ModInstance)
    (memBufVarAddr opaqueBufAddr : Nat) : NMEOutcome :=
  match resolveImportedFunctions st mi.importedFunctions with
  | none => .panicked
  | some importedFunctions =>
    match lookupA st.modules m.moduleID with
    | none =>
      .err st ("source module for " ++ name ++ " must be compiled before instantiation")
    | some compiled =>
      let vm : vmContext :=
        { moduleInstanceName := mi.moduleInstanceName
          parent := compiled
          importedFunctions := importedFunctions
          opaqueVmContextPtr := opaqueBufAddr
          opaqueVmContext :=
            buildOpaqueVMContext compiled.vmOffsets mi memBufVarAddr importedFunctions }
      .ok { st with vmctxs := setA st.vmctxs mi.key vm } vm

/-! ## Call trampolines (`NewCallEngine`, `alignedStackTop`, `getResults`) -/

/-- `initialStackSizeInBytes = 1 << 12`. -/
def initialStackSizeInBytes : Nat := 2 ^ 12

/-- `alignedStackTop`: takes the address of the last byte of the stack
buffer (`&s[len(s)-1]`, so the buffer occupies addresses
`[base, base + len - 1]`) and clears its low 4 bits
(`stackAddr - (stackAddr & 15)`). -/
def alignedStackTop (base len : Nat) : Nat :=
  let stackAddr := base + (len - 1)
  stackAddr - stackAddr % 16

/-- A function instance handle, reduced to the `engineext.FunctionInstance`
queries used by `NewCallEngine`: `ModuleInstanceName()`, `Index()` and
`FunctionType()` (params, results as value-type bytes). -/
structure functionInstance where
  moduleInstanceName : String
  index : Nat
  params : List Nat
  results : List Nat
deriving DecidableEq, Repr

/-- `callEngine`: per-exported-function call state.  The entry thunk
(`getEntryPoint`, not under `src/`) is modelled from the spec as the
signature key that selects it; the stack buffer is represented by its
length and the aligned top address; `vmCtx` is the owning VM context. -/
structure callEngine where
  entry : List Nat × List Nat
  executable : Nat
  setParamsExecutable : Option Nat
  resultsHolder : List Nat
  stackLen : Nat
  alignedStackTop : Nat
  vmCtx : vmContext
  results : List Nat
deriving DecidableEq, Repr

/-- Outcome of `NewCallEngine`: the call engine, an error return
(propagated from `paramSetupFn`), or a Go `panic`. -/
inductive CallEngineOutcome where
  | ok (ce : callEngine)
  | err
  | panicked
deriving DecidableEq, Repr

/-- `NewCallEngine`: panics when the function instance belongs to a
different module instance (`panic("TODO: add test case to cover this
after added support for imported functions")`); otherwise allocates a
stack of `initialStackSizeInBytes` at an allocator-chosen `stackBaseAddr`,
resolves the function's executable entry (whose panics propagate),
allocates `len(results)*8` result bytes when there are results, and, when
there are parameters, obtains the parameter-setup stub from
`paramSetupFn` — code not under `src/`, modelled from the spec as the
oracle `paramSetup` (`none` = error return, `some stub` = the stub's
address). -/
def NewCallEngine (vm : vmContext) (f : functionInstance)
    (stackBaseAddr : Nat) (paramSetup : Option Nat) : CallEngineOutcome :=
  if f.moduleInstanceName ≠ vm.moduleInstanceName then .panicked
  else
    match resolveFunctionExecutable vm f.index with
    | none => .panicked
    | some exec =>
      let resultsHolder :=
        if 0 < f.results.length then List.replicate (f.results.length * 8) 0 else []
      let setParams : Option (Option Nat) :=
        if 0 < f.params.length then
          match paramSetup with
          | none => none
          | some stub => some (some stub)
        else some none
      match setParams with
      | none => .err
      | some sp =>
        .ok { entry := (f.params, f.results)
              executable := exec
              setParamsExecutable := sp
              resultsHolder := resultsHolder
              stackLen := initialStackSizeInBytes
              alignedStackTop := alignedStackTop stackBaseAddr initialStackSizeInBytes
              vmCtx := vm
              results := f.results }

/-- `getResults`: decodes the u64 result slots from the byte-level results
holder, walking the result types in order with a running byte offset:
i32/f32 read 4 little-endian bytes (zero-extended into the 64-bit slot,
implicit in `Nat`), i64/f64 read 8; any other type panics
(`panic("TODO")`), modelled as `none`, as is the Go slice-bounds panic of
`resultsHolder[offset:offset+n]`. -/
def getResults : List Nat → List Nat → Nat → Option (List Nat)
  | [], _, _ => some []
  | vt :: rest, resultsHolder, offset =>
    if vt = ValueTypeI32 ∨ vt = ValueTypeF32 then
      if offset + 4 ≤ resultsHolder.length then
        (getResults rest resultsHolder (offset + 4)).map
          (fun tail => readLE resultsHolder offset 4 :: tail)
      else none
    else if vt = ValueTypeI64 ∨ vt = ValueTypeF64 then
      if offset + 8 ≤ resultsHolder.length then
        (getResults rest resultsHolder (offset + 8)).map
          (fun tail => readLE resultsHolder offset 8 :: tail)
      else none
    else none

/-- Modelled from the spec: the byte width of a result slot — 4 for
i32/f32, 8 for i64/f64, undefined (fatal) otherwise. -/
def resultSlotSize (vt : Nat) : Option Nat :=
  if vt = ValueTypeI32 ∨ vt = ValueTypeF32 then some 4
  else if vt = ValueTypeI64 ∨ vt = ValueTypeF64 then some 8
  else none

/-- Modelled from the spec: result decoding as the spec words it — "for
each result type, read 4 bytes (for i32/f32, zero-extended into a 64-bit
slot) or 8 bytes (i64/f64); unknown result types are fatal" — consuming
the holder slot by slot. -/
def decodeResultsSpec : List Nat → List Nat → Option (List Nat)
  | [], _ => some []
  | vt :: rest, holder =>
    match resultSlotSize vt with
    | none => none
    | some n =>
      if n ≤ holder.length then
        (decodeResultsSpec rest (holder.drop n)).map
          (fun tail => decodeLEList (holder.take n) :: tail)
      else none

/-! ## Concrete inputs used by witnesses and counterexamples -/

/-- Concrete VM context used by the C10 witness. -/
def c10vm : vmContext :=
  { moduleInstanceName := "host"
    parent :=
      { executableBaseAddr := 0, executable := [], executableOffsets := []
        vmOffsets := { totalSize := 0, localMemoryBegin := -1
                       importedMemoryBegin := -1, importedFunctionsBegin := 0 } }
    importedFunctions := []
    opaqueVmContextPtr := 0
    opaqueVmContext := [] }

/-- Concrete imported function instance used by the C10 witness. -/
def c10f : functionInstance :=
  { moduleInstanceName := "other", index := 0, params := [], results := [] }

/-- Concrete module for the C2 failing input: one local memory, nothing
else, so `local_memory_begin = 0` and `total_size = 16`. -/
def c2m : Mod :=
  { moduleID := 1, hostModule := false, importFuncCount := 0, codeCount := 1
    localMemoriesCount := 1, importedMemoriesCount := 0 }

/-- Concrete instance for the C2 failing input: the memory buffer's first
byte lives at address `0x2000` and the buffer is 3 bytes long, while the
Go runtime places the local slice-header variable `memBuf` at `0x1000`. -/
def c2mi : ModInstance :=
  { key := 0, moduleInstanceName := "m", memoryBufferFirstByteAddr := 0x2000
    memoryBufferLen := 3, importedMemoryInstancePtr := 0, importedFunctions := [] }

/-- Concrete VM context for the C4 counterexample: one imported function
whose resolved foreign entry is `0x500`; its parent module has no local
code. -/
def c4vm : vmContext :=
  { moduleInstanceName := "b"
    parent :=
      { executableBaseAddr := 0, executable := [], executableOffsets := []
        vmOffsets := { totalSize := 16, localMemoryBegin := -1
                       importedMemoryBegin := -1, importedFunctionsBegin := 0 } }
    importedFunctions := [{ executable := 0x500, vmctxOpaquePtr := 0x600 }]
    opaqueVmContextPtr := 0x700
    opaqueVmContext := List.replicate 16 0 }

/-- Concrete VM context for the C4 witness: no imports, a two-function
executable with offsets 0 and 2, base address 100. -/
def c4wvm : vmContext :=
  { moduleInstanceName := "a"
    parent :=
      { executableBaseAddr := 100, executable := [1, 2, 3], executableOffsets := [0, 2]
        vmOffsets := { totalSize := 0, localMemoryBegin := -1
                       importedMemoryBegin := -1, importedFunctionsBegin := 0 } }
    importedFunctions := []
    opaqueVmContextPtr := 0
    opaqueVmContext := [] }

/-- Concrete empty engine state (shared by several concrete runs). -/
def emptyEngine : engineState := { modules := [], pending := [], vmctxs := [] }

/-- Concrete zero-function module for the C8 failing input. -/
def c8m : Mod :=
  { moduleID := 3, hostModule := false, importFuncCount := 2, codeCount := 0
    localMemoriesCount := 0, importedMemoriesCount := 0 }

/-- Concrete module for the C5 concrete runs: two local functions, id 7. -/
def c5m : Mod :=
  { moduleID := 7, hostModule := false, importFuncCount := 0, codeCount := 2
    localMemoriesCount := 0, importedMemoriesCount := 0 }

/-- Concrete pending body emitted for function 0 in the C5 runs. -/
def c5body : pendingCompiledBody := { machineCode := [0x90], relocs := [] }

/-- Generator oracle for the C5 runs: function 0 compiles, function 1
fails. -/
def c5gen : Nat → Option pendingCompiledBody :=
  fun funcId => if funcId = 0 then some c5body else none

/-- The engine state after the failing C5 run: the body of function 0 is
still recorded under module id 7. -/
def c5st' : engineState :=
  { modules := [], pending := [(7, [c5body])], vmctxs := [] }

/-- Concrete module for the C6 witness: id 5, never compiled. -/
def c6m : Mod :=
  { moduleID := 5, hostModule := false, importFuncCount := 0, codeCount := 1
    localMemoriesCount := 0, importedMemoriesCount := 0 }

/-- Concrete import-free instance for the C6 witness. -/
def c6mi : ModInstance :=
  { key := 9, moduleInstanceName := "m1", memoryBufferFirstByteAddr := 0
    memoryBufferLen := 0, importedMemoryInstancePtr := 0, importedFunctions := [] }

/-- Concrete pending bodies for the C3 witness: a 2-byte body followed by
a 1-byte body. -/
def c3Bodies : List pendingCompiledBody :=
  [{ machineCode := [1, 2], relocs := [] }, { machineCode := [3], relocs := [] }]

/-- Concrete VM context for the C7 witness: one local function at offset 0
of a one-byte executable based at 200. -/
def c7vm : vmContext :=
  { moduleInstanceName := "mod7"
    parent :=
      { executableBaseAddr := 200, executable := [0x90], executableOffsets := [0]
        vmOffsets := { totalSize := 0, localMemoryBegin := -1
                       importedMemoryBegin := -1, importedFunctionsBegin := 0 } }
    importedFunctions := []
    opaqueVmContextPtr := 0
    opaqueVmContext := [] }

/-- Concrete exported function for the C7 witness: no parameters, one i32
result. -/
def c7f : functionInstance :=
  { moduleInstanceName := "mod7", index := 0, params := [], results := [ValueTypeI32] }

/-- The call engine `NewCallEngine` builds for `c7vm`/`c7f`. -/
def c7ce : callEngine :=
  { entry := ([], [ValueTypeI32])
    executable := 200
    setParamsExecutable := none
    resultsHolder := List.replicate 8 0
    stackLen := initialStackSizeInBytes
    alignedStackTop := alignedStackTop 0 initialStackSizeInBytes
    vmCtx := c7vm
    results := [ValueTypeI32] }

/-! ## Theorems -/

/-- C1: for every module descriptor, `getOpaqueVmContextOffsets` lays the
VM context out as claimed: `local_memory_begin = 0` (16 bytes reserved)
when there is at least one local memory and −1 otherwise;
`imported_memory_begin` is the next offset (8 bytes reserved) when there
is at least one imported memory and −1 otherwise;
`imported_functions_begin` is the offset after those reservations; and
`imported_functions_begin + 16·ImportFuncCount = total_size`. -/
theorem getOpaqueVmContextOffsets_layout (m : Mod) :
    (getOpaqueVmContextOffsets m).localMemoryBegin
        = (if 0 < m.localMemoriesCount then 0 else -1)
    ∧ (getOpaqueVmContextOffsets m).importedMemoryBegin
        = (if 0 < m.importedMemoriesCount
            then (if 0 < m.localMemoriesCount then 16 else 0) else -1)
    ∧ (getOpaqueVmContextOffsets m).importedFunctionsBegin
        = (if 0 < m.localMemoriesCount then 16 else 0)
          + (if 0 < m.importedMemoriesCount then 8 else 0)
    ∧ (getOpaqueVmContextOffsets m).importedFunctionsBegin
          + 16 * (m.importFuncCount : Int)
        = (getOpaqueVmContextOffsets m).totalSize := by
  simp only [getOpaqueVmContextOffsets]
  by_cases h1 : 0 < m.localMemoriesCount <;>
    by_cases h2 : 0 < m.importedMemoriesCount <;>
    simp [h1, h2]

/-- C9 counterexample: the claim quantifies over every stack buffer of
length at least 1, but for a one-byte buffer based at address 17 the
returned stack top (16) lies strictly below the buffer's base, hence not
within the buffer. -/
theorem alignedStackTop_outside_small_buffer :
    alignedStackTop 17 1 = 16 ∧ alignedStackTop 17 1 < 17 := by decide

/-- C9 (amended): for every stack buffer of length at least 16 — in
particular the engine's default `initialStackSizeInBytes = 4096` — the
returned stack top lies within the buffer (`base ≤ top ≤ base + len − 1`)
and satisfies `top ≡ 0 (mod 16)`. -/
theorem alignedStackTop_within_and_aligned (base len : Nat) (h : 16 ≤ len) :
    base ≤ alignedStackTop base len
    ∧ alignedStackTop base len ≤ base + len - 1
    ∧ alignedStackTop base len % 16 = 0 := by
  simp only [alignedStackTop]
  omega

/-- C9 witness: the amended theorem applied to the engine's default stack
size at base address 17. -/
theorem alignedStackTop_within_and_aligned_default :
    17 ≤ alignedStackTop 17 initialStackSizeInBytes
    ∧ alignedStackTop 17 initialStackSizeInBytes ≤ 17 + initialStackSizeInBytes - 1
    ∧ alignedStackTop 17 initialStackSizeInBytes % 16 = 0 :=
  alignedStackTop_within_and_aligned 17 initialStackSizeInBytes (by decide)

/-- C10: whenever the function instance's module-instance name differs from
the VM context's own, `NewCallEngine` panics — it returns neither a call
engine nor an error. -/
theorem NewCallEngine_imported_function_panics (vm : vmContext)
    (f : functionInstance) (stackBaseAddr : Nat) (paramSetup : Option Nat)
    (h : f.moduleInstanceName ≠ vm.moduleInstanceName) :
    NewCallEngine vm f stackBaseAddr paramSetup = .panicked := by
  unfold NewCallEngine
  simp [h]

/-- C10 witness: creating a call engine for a function instance whose
module-instance name differs from the VM context's panics. -/
theorem NewCallEngine_imported_function_panics_witness :
    NewCallEngine c10vm c10f 0 none = .panicked :=
  NewCallEngine_imported_function_panics c10vm c10f 0 none (by decide)

/-- C2 (code bug): `buildOpaqueVMContext` writes, at `local_memory_begin`,
the address of the local Go variable `memBuf` holding the slice header
(`uint64(uintptr(unsafe.Pointer(&memBuf)))`) — here `0x1000` — and not
the address of the first byte of the instance's memory buffer (`0x2000`),
contradicting the claim and the source's own layout comment
(`localMemoryBufferPtr *byte`).  The length at `local_memory_begin + 8`
is written as the claim states. -/
theorem buildOpaqueVMContext_writes_header_address :
    readLE (buildOpaqueVMContext (getOpaqueVmContextOffsets c2m) c2mi 0x1000 []) 0 8
      = 0x1000
    ∧ readLE (buildOpaqueVMContext (getOpaqueVmContextOffsets c2m) c2mi 0x1000 []) 8 8
      = c2mi.memoryBufferLen
    ∧ (0x1000 : Nat) ≠ c2mi.memoryBufferFirstByteAddr := by decide

/-- C4 counterexample: function index 0 of `c4vm` is imported (the context
has one imported function, whose resolved entry `0x500` is at hand), yet
`resolveFunctionExecutable` does not recurse into the import chain and
resolve it — it panics (`none`), returning no address at all. -/
theorem resolveFunctionExecutable_panics_on_imported :
    resolveFunctionExecutable c4vm 0 = none
    ∧ (c4vm.importedFunctions.map (fun f => f.executable)) = [0x500] := by decide

/-- C4 (amended): for a locally defined index (`index ≥ imported count`,
with the offset table and executable in bounds)
`resolveFunctionExecutable` returns the address of
`executable[executableOffsets[index − imported count]]` in the parent
compiled module; for an imported index it panics (it is only ever called
on locally defined functions), rather than recursing into the import
chain. -/
theorem resolveFunctionExecutable_local (vm : vmContext) (idx off : Nat)
    (h1 : vm.importedFunctions.length ≤ idx)
    (h2 : vm.parent.executableOffsets[idx - vm.importedFunctions.length]? = some off)
    (h3 : off < vm.parent.executable.length) :
    resolveFunctionExecutable vm idx = some (vm.parent.executableBaseAddr + off)
    ∧ ∀ j, j < vm.importedFunctions.length → resolveFunctionExecutable vm j = none := by
  constructor
  · unfold resolveFunctionExecutable
    rw [if_pos h1]
    simp only [h2, if_pos h3]
  · intro j hj
    unfold resolveFunctionExecutable
    rw [if_neg (by omega)]

/-- C4 witness: the amended theorem at `c4wvm`, function index 1 — the
entry address is base 100 plus offset 2. -/
theorem resolveFunctionExecutable_local_witness :
    resolveFunctionExecutable c4wvm 1 = some 102 :=
  (resolveFunctionExecutable_local c4wvm 1 2 (by decide) (by decide) (by decide)).1

/-- C8 (code bug): compiling a module with zero locally defined functions
does not succeed — the per-function loop never runs, so no pending body
is ever appended for the module id, the pending-map lookup after the loop
finds no entry, and `CompileModule` hits `panic("BUG")` instead of
returning an empty executable. -/
theorem CompileModule_zero_functions_panics :
    CompileModule emptyEngine c8m (fun _ => none) true 0 = .panicked := by decide

/-- C5 counterexample: a run in which function 0 compiles and function 1
fails returns an error, yet the pending compiled body of function 0
remains associated with the module id — the engine state is not rolled
back as the claim demands. -/
theorem CompileModule_error_keeps_pending :
    CompileModule emptyEngine c5m c5gen true 0 = .err c5st'
    ∧ lookupA c5st'.pending 7 = some [c5body] := by decide

/-- C5 (amended): whenever `CompileModule` returns an error (generator
failure or code-mapping failure), no compiled module is registered under
the id — the modules registry (and the vmctxs registry) is exactly as
before the call — but the pending compiled bodies appended before the
failure are not removed from the pending map. -/
theorem CompileModule_error_modules_unchanged (st : engineState) (m : Mod)
    (gen : Nat → Option pendingCompiledBody) (mmapOk : Bool) (base : Nat)
    (st' : engineState)
    (h : CompileModule st m gen mmapOk base = .err st') :
    st'.modules = st.modules ∧ st'.vmctxs = st.vmctxs := by
  simp only [CompileModule] at h
  split at h
  · exact absurd h (by simp)
  · rcases hgen :
      compileFunctions gen (List.map (fun x => x + m.importFuncCount) (List.range m.codeCount))
        ((lookupA st.pending m.moduleID).getD []) with sofar | allBodies
    · simp only [hgen, CompileOutcome.err.injEq] at h
      subst h
      exact ⟨rfl, rfl⟩
    · simp only [hgen] at h
      split at h
      · split at h
        · exact absurd h (by simp)
        · simp only [CompileOutcome.err.injEq] at h
          subst h
          exact ⟨rfl, rfl⟩
      · exact absurd h (by simp)

/-- C5 witness: the amended theorem applied to the failing concrete run —
the modules registry after the error equals the (empty) one before. -/
theorem CompileModule_error_modules_unchanged_witness :
    c5st'.modules = emptyEngine.modules :=
  (CompileModule_error_modules_unchanged emptyEngine c5m c5gen true 0 c5st'
    (by decide)).1

/-- C6: for every instance handle whose module id is absent from the
compiled-module registry (and whose imported functions resolve, so the
earlier import loop does not panic first), `NewModuleEngine` returns an
error whose message contains the module name — it is
`"source module for " ++ name ++ " must be compiled before
instantiation"` — and the engine state, in particular the `vmctxs`
registry, is exactly the one before the call: no VM context is
registered. -/
theorem NewModuleEngine_uncompiled_error (st : engineState) (name : String)
    (m : Mod) (mi : ModInstance) (memBufVarAddr opaqueBufAddr : Nat)
    (l : List vmContextImportedFunction)
    (h1 : resolveImportedFunctions st mi.importedFunctions = some l)
    (h2 : lookupA st.modules m.moduleID = none) :
    NewModuleEngine st name m mi memBufVarAddr opaqueBufAddr
      = .err st ("source module for " ++ name ++ " must be compiled before instantiation")
    ∧ ∃ pre post,
        ("source module for " ++ name ++ " must be compiled before instantiation")
          = pre ++ name ++ post := by
  constructor
  · simp only [NewModuleEngine, h1, h2]
  · exact ⟨"source module for ", " must be compiled before instantiation", rfl⟩

/-- C6 witness: instantiating name `"m1"` over an empty engine yields the
error message containing the name and leaves the engine untouched. -/
theorem NewModuleEngine_uncompiled_error_witness :
    NewModuleEngine emptyEngine "m1" c6m c6mi 0 0
      = .err emptyEngine "source module for m1 must be compiled before instantiation" := by
  have h :=
    (NewModuleEngine_uncompiled_error emptyEngine "m1" c6m c6mi 0 0 [] rfl rfl).1
  exact h

/-- The stitch loop started at running total `t` assigns body `i` the
offset `t` plus the sum of the machine-code lengths of the bodies before
it. -/
theorem stitchExecutableOffsets_getElem (bodies : List pendingCompiledBody) :
    ∀ (t i : Nat), i < bodies.length →
      (stitchExecutableOffsets t bodies)[i]? = some (t + totalSizeOf (bodies.take i)) := by
  induction bodies with
  | nil => intro t i h; simp at h
  | cons b rest ih =>
    intro t i h
    cases i with
    | zero => simp [stitchExecutableOffsets, totalSizeOf]
    | succ j =>
      have hj : j < rest.length := by simpa using h
      simp only [stitchExecutableOffsets, List.getElem?_cons_succ, ih _ j hj,
        List.take_succ_cons, totalSizeOf, List.map_cons, List.sum_cons]
      congr 1
      omega

/-- The flattened machine code, indexed at the sum of the lengths of the
bodies before body `i`, yields the first byte of body `i`. -/
theorem flatten_getElem_at_offset (bodies : List pendingCompiledBody) :
    ∀ (i : Nat) (b : pendingCompiledBody), bodies[i]? = some b →
      b.machineCode ≠ [] →
      ((bodies.map (fun c => c.machineCode)).flatten)[totalSizeOf (bodies.take i)]?
        = b.machineCode[0]? := by
  induction bodies with
  | nil => intro i b h _; simp at h
  | cons x rest ih =>
    intro i b h hne
    cases i with
    | zero =>
      simp only [List.getElem?_cons_zero, Option.some.injEq] at h
      subst h
      simp only [List.take_zero, totalSizeOf, List.map_nil, List.sum_nil,
        List.map_cons, List.flatten_cons]
      cases hmc : x.machineCode with
      | nil => exact absurd hmc hne
      | cons y ys => simp [hmc]
    | succ j =>
      simp only [List.getElem?_cons_succ] at h
      simp only [List.take_succ_cons, totalSizeOf, List.map_cons, List.sum_cons,
        List.flatten_cons]
      rw [List.getElem?_append_right (by omega)]
      have hx : x.machineCode.length
            + ((rest.take j).map (fun c => c.machineCode.length)).sum
            - x.machineCode.length
          = ((rest.take j).map (fun c => c.machineCode.length)).sum := by omega
      rw [hx]
      exact ih j b h hne

/-- C3: after `CompileModule` stitches the pending bodies in
function-index order (`executableOffsetsOf`), the offset of body `i` —
which `exportCompileDone`'s append order makes the generator's output for
function `i + imported_count` — is the sum of the machine-code lengths of
all bodies with index below `i`; the total executable size is the sum of
all body lengths; and the stitched executable holds body `i`'s first byte
at `offsets[i]`. -/
theorem CompileModule_stitch_roundtrip (bodies : List pendingCompiledBody)
    (i : Nat) (b : pendingCompiledBody) (hb : bodies[i]? = some b)
    (hne : b.machineCode ≠ []) :
    (executableOffsetsOf bodies)[i]? = some (totalSizeOf (bodies.take i))
    ∧ ((bodies.map (fun c => c.machineCode)).flatten).length = totalSizeOf bodies
    ∧ ((bodies.map (fun c => c.machineCode)).flatten)[totalSizeOf (bodies.take i)]?
        = b.machineCode[0]? := by
  have hlt : i < bodies.length := (List.getElem?_eq_some.mp hb).1
  refine ⟨?_, ?_, ?_⟩
  · simpa using stitchExecutableOffsets_getElem bodies 0 i hlt
  · simp only [List.length_flatten, List.map_map, totalSizeOf]
    rfl
  · exact flatten_getElem_at_offset bodies i b hb hne

/-- C3 witness: for the two concrete bodies, body 1's offset is 2 (the
length of body 0), the executable is 3 bytes, and byte 2 of the stitched
executable is body 1's first byte, 3. -/
theorem CompileModule_stitch_roundtrip_witness :
    (executableOffsetsOf c3Bodies)[1]? = some (totalSizeOf (c3Bodies.take 1))
    ∧ ((c3Bodies.map (fun c => c.machineCode)).flatten).length = totalSizeOf c3Bodies
    ∧ ((c3Bodies.map (fun c => c.machineCode)).flatten)[totalSizeOf (c3Bodies.take 1)]?
        = some 3 :=
  have h :=
    CompileModule_stitch_roundtrip c3Bodies 1 { machineCode := [3], relocs := [] } rfl
      (by simp)
  ⟨h.1, h.2.1, (h.2.2).trans rfl⟩

/-- The source decoder `getResults`, started at byte offset `off`, agrees
with the spec-level decoder run on the holder with the first `off` bytes
dropped. -/
theorem getResults_eq_decodeResultsSpec (ts : List Nat) :
    ∀ (holder : List Nat) (off : Nat),
      getResults ts holder off = decodeResultsSpec ts (holder.drop off) := by
  induction ts with
  | nil => intro holder off; rfl
  | cons vt rest ih =>
    intro holder off
    by_cases h32 : vt = ValueTypeI32 ∨ vt = ValueTypeF32
    · have hsize : resultSlotSize vt = some 4 := by simp [resultSlotSize, h32]
      simp only [getResults, decodeResultsSpec, hsize, if_pos h32]
      by_cases hb : off + 4 ≤ holder.length
      · rw [if_pos hb, if_pos (by simp only [List.length_drop]; omega)]
        rw [ih holder (off + 4), List.drop_drop]
        rfl
      · rw [if_neg hb, if_neg (by simp only [List.length_drop]; omega)]
    · by_cases h64 : vt = ValueTypeI64 ∨ vt = ValueTypeF64
      · have hsize : resultSlotSize vt = some 8 := by simp [resultSlotSize, h32, h64]
        simp only [getResults, decodeResultsSpec, hsize, if_neg h32, if_pos h64]
        by_cases hb : off + 8 ≤ holder.length
        · rw [if_pos hb, if_pos (by simp only [List.length_drop]; omega)]
          rw [ih holder (off + 8), List.drop_drop]
          rfl
        · rw [if_neg hb, if_neg (by simp only [List.length_drop]; omega)]
      · have hsize : resultSlotSize vt = none := by simp [resultSlotSize, h32, h64]
        simp only [getResults, decodeResultsSpec, hsize, if_neg h32, if_neg h64]

/-- Inversion helper: any call engine produced by `NewCallEngine` carries
the results holder the source allocates — `len(results)*8` zero bytes
when there are results, nil otherwise. -/
theorem NewCallEngine_ok_resultsHolder (vm : vmContext) (f : functionInstance)
    (stackBaseAddr : Nat) (paramSetup : Option Nat) (ce : callEngine)
    (h : NewCallEngine vm f stackBaseAddr paramSetup = .ok ce) :
    ce.resultsHolder
      = if 0 < f.results.length then List.replicate (f.results.length * 8) 0 else [] := by
  simp only [NewCallEngine] at h
  split at h
  · exact absurd h (by simp)
  · rcases hres : resolveFunctionExecutable vm f.index with _ | exec
    · rw [hres] at h
      exact absurd h (by simp)
    · rw [hres] at h
      simp only [] at h
      split at h
      · exact absurd h (by simp)
      · simp only [CallEngineOutcome.ok.injEq] at h
        subst h
        rfl

/-- C7: every call engine `NewCallEngine` returns carries a results buffer
of exactly `8 · len(results)` bytes (vacuously 0 for an empty result
list), and the source result decoder `getResults` coincides with the
spec-level decoder `decodeResultsSpec`: walking the result types in
order, i32/f32 read 4 little-endian bytes zero-extended into the 64-bit
slot, i64/f64 read 8, and any other result type is fatal. -/
theorem NewCallEngine_results_decoding (vm : vmContext) (f : functionInstance)
    (stackBaseAddr : Nat) (paramSetup : Option Nat) (ce : callEngine)
    (h : NewCallEngine vm f stackBaseAddr paramSetup = .ok ce) :
    ce.resultsHolder.length = 8 * f.results.length
    ∧ ∀ ts holder, getResults ts holder 0 = decodeResultsSpec ts holder := by
  constructor
  · rw [NewCallEngine_ok_resultsHolder vm f stackBaseAddr paramSetup ce h]
    by_cases hr : 0 < f.results.length
    · simp [hr, Nat.mul_comm]
    · rw [if_neg hr]
      simp only [List.length_nil]
      omega
  · intro ts holder
    simpa using getResults_eq_decodeResultsSpec ts holder 0

/-- C7 witness: the concrete call engine's results buffer has `8·1` bytes
and the two decoders agree on it for the single-i32 signature. -/
theorem NewCallEngine_results_decoding_witness :
    c7ce.resultsHolder.length = 8 * c7f.results.length
    ∧ getResults [ValueTypeI32] c7ce.resultsHolder 0
        = decodeResultsSpec [ValueTypeI32] c7ce.resultsHolder :=
  have h := NewCallEngine_results_decoding c7vm c7f 0 none c7ce (by rfl)
  ⟨h.1, h.2 [ValueTypeI32] c7ce.resultsHolder⟩

end Wazerolift
